import Mathlib

/-!
Shallow embedding of `src/main.py` (a CLI that uploads a generated cat
image to a remote drive via HTTP and records a JSON manifest).

Network calls are modelled by an oracle environment: each call site
receives an `HttpResult` describing what the network did — either a
raised transport exception (`exn`, covering `requests` errors and
JSON-decoding errors, both of which surface as exceptions in Python)
or a response with a status code and an already-decoded body.
Python dict lookups with `.get(key, default)` are modelled by `Option`
fields read with `Option.getD`.
-/

/-- Outcome of one HTTP call: a raised transport exception, or a
response with an HTTP status code and a decoded body of type `β`. -/
inductive HttpResult (β : Type) where
  | exn : HttpResult β
  | resp : Nat → β → HttpResult β
deriving DecidableEq

/-- Body of the poll response `GET /v1/disk/operations/{id}`:
`status` models `.get("status")` (absent key gives `none`),
`progress` models `.get("progress", 0)` (absent key defaults later). -/
structure StatusPayload where
  status : Option String
  progress : Option Rat
deriving DecidableEq

/-- Body of `GET /v1/disk/resources?path=...`: the `size` and `path`
fields of the JSON, `none` when the key is absent. -/
structure FileMeta where
  size : Option Nat
  path : Option String
deriving DecidableEq

/-- `YDConnector.create_folder` (main.py lines 19-27).  The `requests.put`
call is NOT wrapped in try/except, so a transport exception propagates out
of the function: we model that as `Except.error ()`.  On a response the
function returns `status_code in [201, 409]`. -/
def create_folder (r : HttpResult Unit) : Except Unit Bool :=
  match r with
  | .exn => .error ()
  | .resp st _ => .ok (decide (st ∈ ([201, 409] : List Nat)))

/-- `YDConnector.check_token` (main.py lines 73-80): inside try/except,
returns `status_code == 200`; any exception gives `False`. -/
def check_token (r : HttpResult Unit) : Bool :=
  match r with
  | .exn => false
  | .resp st _ => decide (st = 200)

/-- `YDConnector.check_upload_status` (main.py lines 48-58): returns the
decoded JSON on HTTP 200, `None` otherwise, `None` on exception. -/
def check_upload_status (r : HttpResult StatusPayload) : Option StatusPayload :=
  match r with
  | .exn => none
  | .resp st body => if st = 200 then some body else none

/-- `YDConnector.get_file_info` (main.py lines 60-71): returns the decoded
JSON on HTTP 200, `None` otherwise, `None` on exception. -/
def get_file_info (r : HttpResult FileMeta) : Option FileMeta :=
  match r with
  | .exn => none
  | .resp st body => if st = 200 then some body else none

/-!
### Python `s.split(marker)[-1]`

`upload_from_url` extracts the operation id with
`response.json().get("href", "").split("operation_id=")[-1]`.
Python `split` cuts non-overlapping occurrences left to right, so the
last piece is obtained by repeatedly jumping past the first occurrence
of the marker; if the marker does not occur, the whole string is the
single (hence last) piece.  We model this on `List Char`.
-/

/-- The suffix of `s` immediately after the first occurrence of `m`,
or `none` when `m` does not occur in `s` (the `nil` case also makes an
empty pattern never match an empty string, which is irrelevant here:
the marker used is nonempty). -/
def afterFirst (m : List Char) : List Char → Option (List Char)
  | [] => none
  | c :: rest =>
      if m.isPrefixOf (c :: rest) then some ((c :: rest).drop m.length)
      else afterFirst m rest

/-- Fuelled iteration of `afterFirst`: jump past occurrences of `m`
until none is left.  With fuel at least `s.length + 1` and a nonempty
marker the fuel never runs out. -/
def splitTailAux (m : List Char) : Nat → List Char → List Char
  | 0, s => s
  | fuel + 1, s =>
      match afterFirst m s with
      | none => s
      | some t => splitTailAux m fuel t

/-- Model of Python `s.split(m)[-1]` for a nonempty separator `m`:
the part of `s` after the last (non-overlapping, left-to-right)
occurrence of `m`, or all of `s` when `m` does not occur. -/
def splitTail (m s : List Char) : List Char :=
  splitTailAux m (s.length + 1) s

/-- The fixed marker `"operation_id="` of main.py line 42. -/
def opMarker : String := "operation_id="

/-- String-level wrapper for `splitTail`. -/
def pySplitLast (m s : String) : String :=
  ⟨splitTail m.data s.data⟩

/-- `YDConnector.upload_from_url` (main.py lines 29-46): inside
try/except; on a non-202 status returns `None`; otherwise returns
`json().get("href", "").split("operation_id=")[-1]`; any exception
(transport or JSON decode) gives `None`.  The body is the optional
`href` field of the decoded JSON. -/
def upload_from_url (r : HttpResult (Option String)) : Option String :=
  match r with
  | .exn => none
  | .resp st href? =>
      if st = 202 then some (pySplitLast opMarker (href?.getD "")) else none

/-- Python truthiness of the `operation_id` value at main.py line 150
(`if not operation_id`): `None` and the empty string are falsy, every
other string is truthy. -/
def isTruthy : Option String → Bool
  | none => false
  | some s => !(s == "")

/-!
### `urllib.parse.quote` (used by `CatImageAPI.get_cat_with_text`)

Python `quote(text)` UTF-8-encodes the text and percent-encodes every
byte except the always-safe set (ASCII letters, digits, `_`, `.`, `-`,
`~`) and the default extra safe character `/`.
-/

/-- UTF-8 encoding of one character, as a list of byte values. -/
def utf8Bytes (c : Char) : List Nat :=
  let n := c.toNat
  if n < 128 then [n]
  else if n < 2048 then [192 + n / 64, 128 + n % 64]
  else if n < 65536 then [224 + n / 4096, 128 + (n / 64) % 64, 128 + n % 64]
  else [240 + n / 262144, 128 + (n / 4096) % 64, 128 + (n / 64) % 64, 128 + n % 64]

/-- UTF-8 encoding of a character list, as a list of byte values. -/
def utf8Encode : List Char → List Nat
  | [] => []
  | c :: cs => utf8Bytes c ++ utf8Encode cs

/-- Bytes Python `quote` leaves unescaped: ASCII letters, digits,
underscore (95), dot (46), hyphen (45), tilde (126), and the default
safe character slash (47). -/
def isSafeByte (b : Nat) : Bool :=
  decide ((65 ≤ b ∧ b ≤ 90) ∨ (97 ≤ b ∧ b ≤ 122) ∨ (48 ≤ b ∧ b ≤ 57) ∨
    b = 95 ∨ b = 46 ∨ b = 45 ∨ b = 126 ∨ b = 47)

/-- The sixteen uppercase hexadecimal digit characters. -/
def hexDigits : List Char :=
  ['0', '1', '2', '3', '4', '5', '6', '7', '8', '9', 'A', 'B', 'C', 'D', 'E', 'F']

/-- The hexadecimal digit character for `x` (callers pass values below 16). -/
def hexDigitChar (x : Nat) : Char :=
  hexDigits.getD x '0'

/-- Rendering of one byte by `quote`: a safe byte stands for itself, any
other byte becomes a three-character escape `%XX` in uppercase hex. -/
def encodeByte (b : Nat) : List Char :=
  if isSafeByte b then [Char.ofNat b]
  else ['%', hexDigitChar (b / 16 % 16), hexDigitChar (b % 16)]

/-- Rendering of a byte sequence by `quote`. -/
def renderBytes : List Nat → List Char
  | [] => []
  | b :: bs => encodeByte b ++ renderBytes bs

/-- Model of Python `urllib.parse.quote(s)` with the default safe set. -/
def pyQuote (s : String) : String :=
  ⟨renderBytes (utf8Encode s.data)⟩

/-- `CatImageAPI.get_cat_with_text` (main.py lines 86-93): substitutes
the percent-encoded text into the fixed template URL.  The try/except
returning `None` is unreachable because `quote` does not raise on a
string argument, so the model always returns `some`. -/
def get_cat_with_text (text : String) : Option String :=
  some ("https://cataas.com/cat/says/" ++ pyQuote text)

/-!
### The orchestrator `main` (main.py lines 96-207)

The environment gives the network response for each call site as a
function of the request data the program sends; the poll endpoint is
additionally indexed by the attempt number, since it is called up to
20 times.
-/

/-- Network oracle: the response each endpoint returns for a given
request.  `pollResp id i` is the response to the `i`-th status poll of
operation `id` (counting from 0); `now` is the wall-clock timestamp
used for the manifest. -/
structure Env where
  tokenCheck : HttpResult Unit
  folderCreate : String → HttpResult Unit
  uploadResp : String → String → HttpResult (Option String)
  pollResp : String → Nat → HttpResult StatusPayload
  fileInfoResp : String → HttpResult FileMeta
  now : String

/-- The parsed CLI arguments (all three flags are required). -/
structure Args where
  text : String
  token : String
  group : String

/-- Python `int(progress * 100)` on an exact rational `progress`:
truncation toward zero of `progress * 100`.  Computed on the raw
fraction — `progress * 100 = (100 * num) / den`, and truncating a
fraction toward zero is exactly `Int.tdiv` of numerator by
denominator — so the definition stays reducible. -/
def pyIntTimes100 (q : Rat) : Int :=
  Int.tdiv (q.num * 100) (Int.ofNat q.den)

/-- Result of the polling loop of main.py lines 156-176:
`pbarN` is the final cumulative value of the tqdm progress bar,
`attempts` the number of poll requests issued, and `failedInfo` the
payload printed by the `status == "failed"` diagnostic (main.py line
171) when that branch was taken, else `none`. -/
structure PollOutcome where
  pbarN : Int
  attempts : Nat
  failedInfo : Option StatusPayload
deriving DecidableEq

/-- One-to-one transcription of the `for _ in range(20)` polling loop
(main.py lines 157-176).  `f i` is the response to the `i`-th poll,
`i` counts polls already made, `r` is the remaining iteration budget,
`n` the current progress-bar value.  A falsy payload sleeps and
retries; `"success"` runs `pbar.update(100 - pbar.n)` and breaks;
`"failed"` prints the diagnostic and breaks; any other payload applies
`pbar.update(max(0, int(progress * 100) - pbar.n))` and continues. -/
def pollLoopAux (f : Nat → HttpResult StatusPayload) : Nat → Nat → Int → PollOutcome
  | i, 0, n => ⟨n, i, none⟩
  | i, r + 1, n =>
      match check_upload_status (f i) with
      | none => pollLoopAux f (i + 1) r n
      | some info =>
          if info.status = some "success" then ⟨n + (100 - n), i + 1, none⟩
          else if info.status = some "failed" then ⟨n, i + 1, some info⟩
          else pollLoopAux f (i + 1) r (n + max 0 (pyIntTimes100 (info.progress.getD 0) - n))

/-- The polling loop with its fixed budget of 20 attempts and initial
progress-bar value 0. -/
def pollLoop (f : Nat → HttpResult StatusPayload) : PollOutcome :=
  pollLoopAux f 0 20 0

/-- The external calls `main` makes, in order. -/
inductive CallEvent where
  | checkToken
  | createFolder
  | uploadFromUrl
  | pollStatus
  | getFileInfo
deriving DecidableEq

/-- The locally persisted JSON manifest (main.py lines 183-192). -/
structure Manifest where
  timestamp : String
  group_name : String
  text : String
  file_name : String
  file_size : Nat
  file_path : String
  yandex_disk_url : String
  source_url : String
deriving DecidableEq

/-- Observable outcome of a completed (non-raising) run of `main`:
the external calls made, the manifest file written (if any), the
number of poll attempts, the final progress-bar value, and the payload
of the printed upload-failure diagnostic (if any). -/
structure RunTrace where
  calls : List CallEvent
  manifest : Option Manifest
  pollsUsed : Nat
  finalPbar : Int
  uploadFailDiag : Option StatusPayload
deriving DecidableEq

/-- A trace for a run that aborted (printed an error and returned)
before reaching the polling loop. -/
def abortTrace (calls : List CallEvent) : RunTrace :=
  { calls := calls, manifest := none, pollsUsed := 0, finalPbar := 0, uploadFailDiag := none }

/-- The tail of `main` from the polling loop on (main.py lines
154-207), given the local variables the earlier steps computed:
run the polling loop, fetch the file info, and on success assemble
the manifest (main.py lines 183-192). -/
def postUploadTrace (args : Args) (env : Env)
    (cat_url file_name file_path opId : String) : RunTrace :=
  let po := pollLoop (env.pollResp opId)
  let calls := [CallEvent.checkToken, .createFolder, .uploadFromUrl] ++
    List.replicate po.attempts CallEvent.pollStatus ++ [CallEvent.getFileInfo]
  match get_file_info (env.fileInfoResp file_path) with
  | none =>
      { calls := calls, manifest := none, pollsUsed := po.attempts,
        finalPbar := po.pbarN, uploadFailDiag := po.failedInfo }
  | some info =>
      { calls := calls,
        manifest := some {
          timestamp := env.now,
          group_name := args.group,
          text := args.text,
          file_name := file_name,
          file_size := info.size.getD 0,
          file_path := info.path.getD "",
          yandex_disk_url := "https://disk.yandex.ru/client/disk/" ++ args.group,
          source_url := cat_url },
        pollsUsed := po.attempts, finalPbar := po.pbarN,
        uploadFailDiag := po.failedInfo }

/-- Transcription of `main` (main.py lines 96-207) against the network
oracle `env`.  Every abort path in the Python function is a plain
`return` after printing, hence `.ok`; the only place an exception can
escape is `create_folder` (no try/except there), hence `.error`. -/
def main_run (args : Args) (env : Env) : Except Unit RunTrace :=
  if check_token env.tokenCheck = true then
    match create_folder (env.folderCreate args.group) with
    | .error e => .error e
    | .ok folderOk =>
      if folderOk = true then
        match get_cat_with_text args.text with
        | none => .ok (abortTrace [.checkToken, .createFolder])
        | some cat_url =>
          let file_name := args.text ++ ".jpg"
          let file_path := args.group ++ "/" ++ file_name
          let op := upload_from_url (env.uploadResp cat_url file_path)
          if isTruthy op = true then
            .ok (postUploadTrace args env cat_url file_name file_path (op.getD ""))
          else .ok (abortTrace [.checkToken, .createFolder, .uploadFromUrl])
      else .ok (abortTrace [.checkToken, .createFolder])
  else .ok (abortTrace [.checkToken])

/-- Whether a run finished normally (no exception escaped `main`). -/
def runOk : Except Unit RunTrace → Bool
  | .ok _ => true
  | .error _ => false

/-- The calls a completed run made (empty for a raising run). -/
def runCalls : Except Unit RunTrace → List CallEvent
  | .ok tr => tr.calls
  | .error _ => []

/-- The manifest a completed run wrote, if any. -/
def runManifest : Except Unit RunTrace → Option Manifest
  | .ok tr => tr.manifest
  | .error _ => none

/-- The number of poll attempts a completed run made. -/
def runPollsUsed : Except Unit RunTrace → Nat
  | .ok tr => tr.pollsUsed
  | .error _ => 0

/-- The payload of the printed upload-failure diagnostic, if any. -/
def runFailDiag : Except Unit RunTrace → Option StatusPayload
  | .ok tr => tr.uploadFailDiag
  | .error _ => none


/-- Whether a poll outcome makes the loop break: a payload whose
`status` is `"success"` or `"failed"`.  A `none` outcome (non-200 or
exception) and any other payload keep the loop running. -/
def isTerminalPoll (o : Option StatusPayload) : Bool :=
  match o with
  | none => false
  | some info =>
      decide (info.status = some "success") || decide (info.status = some "failed")

/-- Characters Python `quote` may emit unescaped. -/
def isPySafeChar (c : Char) : Bool :=
  isSafeByte c.toNat

/-- The RFC 3986 reserved characters, written by code point:
`: / ? # [ ] @ ! $ & (single quote) ( ) * + , ; =`.
Modelled from the specification phrase "reserved URL characters";
used only to state claims about which characters may appear raw. -/
def isReservedUrlChar (c : Char) : Bool :=
  c.toNat ∈ [58, 47, 63, 35, 91, 93, 64, 33, 36, 38, 39, 40, 41, 42, 43, 44, 59, 61]

/-!
### Concrete fixtures used by the per-claim theorems
-/

/-- Arguments `--text "hi" --token "tok" --group "cats"`. -/
def argsDemo : Args :=
  { text := "hi", token := "tok", group := "cats" }

/-- Environment of the fully successful end-to-end scenario: folder
created (201), upload accepted (202 with an href carrying an
operation id), first poll reports success, file info reports size
1234 at the uploaded path. -/
def envHappy : Env :=
  { tokenCheck := .resp 200 ()
    folderCreate := fun _ => .resp 201 ()
    uploadResp := fun _ _ => .resp 202 (some "https://up/?operation_id=OP1")
    pollResp := fun _ _ => .resp 200 ⟨some "success", none⟩
    fileInfoResp := fun _ => .resp 200 ⟨some 1234, some "cats/hi.jpg"⟩
    now := "2026-10-12T00:00:00" }

/-- Like `envHappy` but the first poll already reports failure and the
file-info call returns 404. -/
def envFailedPoll : Env :=
  { envHappy with
    pollResp := fun _ _ => .resp 200 ⟨some "failed", none⟩
    fileInfoResp := fun _ => .resp 404 ⟨none, none⟩ }

/-- Like `envHappy` but every poll raises, so no poll is terminal. -/
def envPollExn : Env :=
  { envHappy with pollResp := fun _ _ => .exn }

/-- Like `envHappy` but the credential check returns 403. -/
def envBadToken : Env :=
  { envHappy with tokenCheck := .resp 403 () }

/-- The poll-response sequence of claim C5: running at progress 0.3,
then running at progress 0.6, then success. -/
def pollSeqC5 : Nat → HttpResult StatusPayload := fun i =>
  if i = 0 then .resp 200 ⟨some "running", some (mkRat 3 10)⟩
  else if i = 1 then .resp 200 ⟨some "running", some (mkRat 6 10)⟩
  else .resp 200 ⟨some "success", none⟩

/-!
### Properties of the `split(marker)[-1]` model
-/

/-- A marker is border-free when no nonempty proper suffix of it equals
the prefix of it of the same length; occurrences of a border-free
marker in a string cannot overlap. -/
def borderFree (m : List Char) : Prop :=
  ∀ k, k < m.length → 0 < k → m.drop k ≠ m.take (m.length - k)

/-- The concrete marker `"operation_id="` is border-free. -/
theorem borderFree_opMarker : borderFree opMarker.data := by
  unfold borderFree
  decide

theorem splitTailAux_of_none {m s : List Char} (h : afterFirst m s = none) :
    ∀ fuel, splitTailAux m fuel s = s := by
  intro fuel
  cases fuel with
  | zero => rfl
  | succ f => simp [splitTailAux, h]

/-- When the marker does not occur in `s`, Python `s.split(m)[-1]` is
`s` itself. -/
theorem splitTail_of_none {m s : List Char} (h : afterFirst m s = none) :
    splitTail m s = s :=
  splitTailAux_of_none h _

/-- Jumping past the first marker occurrence in `pre ++ m ++ idc`
either lands exactly on `idc` or on a shorter string of the same
shape.  Needs border-freeness: otherwise an occurrence straddling
`pre` and `m` could cut into the marker itself. -/
theorem afterFirst_append (m idc : List Char) (hm : m ≠ []) (hbf : borderFree m) :
    ∀ pre : List Char, ∃ t, afterFirst m (pre ++ m ++ idc) = some t ∧
      (t = idc ∨ ∃ pre2 : List Char, pre2.length < pre.length ∧ t = pre2 ++ m ++ idc) := by
  intro pre
  induction pre with
  | nil =>
    refine ⟨idc, ?_, Or.inl rfl⟩
    obtain ⟨c, m2, rfl⟩ := List.exists_cons_of_ne_nil hm
    have hpref : (c :: m2).isPrefixOf (c :: (m2 ++ idc)) = true := by
      simp
    simp only [List.nil_append, List.cons_append, afterFirst, List.append_eq]
    rw [if_pos hpref, ← List.cons_append, List.drop_left]
  | cons p pre ih =>
    by_cases hpref : m.isPrefixOf (p :: (pre ++ m ++ idc)) = true
    · obtain ⟨r, hr⟩ : ∃ r, m ++ r = p :: (pre ++ m ++ idc) :=
        (List.isPrefixOf_iff_prefix).1 hpref
      by_cases hlen : m.length ≤ (p :: pre).length
      · -- the first occurrence lies entirely inside `p :: pre`
        have hTP : (p :: pre).take m.length = m := by
          have h1 : (p :: (pre ++ m ++ idc)).take m.length = m := by
            rw [← hr, List.take_append_eq_append_take]
            simp
          have h2 : p :: (pre ++ m ++ idc) = (p :: pre) ++ (m ++ idc) := by simp
          rw [h2, List.take_append_eq_append_take] at h1
          have hlc : (p :: pre).length = pre.length + 1 := by simp
          have h3 : m.length - (pre.length + 1) = 0 := by omega
          simpa [h3] using h1
        have hP : p :: pre = m ++ (p :: pre).drop m.length := by
          conv_lhs => rw [← List.take_append_drop m.length (p :: pre), hTP]
        have harg : (p :: pre) ++ m ++ idc = p :: (pre ++ m ++ idc) := by simp
        refine ⟨(p :: pre).drop m.length ++ m ++ idc, ?_,
          Or.inr ⟨(p :: pre).drop m.length, ?_, rfl⟩⟩
        · rw [harg]
          simp only [afterFirst, List.append_eq]
          rw [if_pos hpref]
          have hsplit : p :: (pre ++ m ++ idc)
              = m ++ ((p :: pre).drop m.length ++ m ++ idc) := by
            rw [← harg]
            conv_lhs => rw [hP]
            simp [List.append_assoc]
          rw [hsplit, List.drop_left]
        · have hmpos : 0 < m.length := List.length_pos.2 hm
          simp only [List.length_drop, List.length_cons]
          omega
      · -- the first occurrence would overlap the marker occurrence at
        -- position `(p :: pre).length`: impossible for a border-free marker
        exfalso
        have hk1 : 0 < (p :: pre).length := by simp
        have hk2 : (p :: pre).length < m.length := Nat.lt_of_not_le hlen
        have hA : (p :: (pre ++ m ++ idc)).drop (p :: pre).length = m ++ idc := by
          have h2 : p :: (pre ++ m ++ idc) = (p :: pre) ++ (m ++ idc) := by simp
          rw [h2, List.drop_left]
        have hB : (m ++ r).drop (p :: pre).length = m.drop (p :: pre).length ++ r := by
          rw [List.drop_append_eq_append_drop]
          have hlc : (p :: pre).length = pre.length + 1 := by simp
          have h3 : pre.length + 1 - m.length = 0 := by omega
          simp [h3]
        have hAB : m.drop (p :: pre).length ++ r = m ++ idc := by
          rw [← hB, hr, hA]
        have htake : m.drop (p :: pre).length
            = m.take (m.length - (p :: pre).length) := by
          have h1 : (m.drop (p :: pre).length ++ r).take (m.length - (p :: pre).length)
              = m.drop (p :: pre).length := by
            apply List.take_left'
            simp
          have h2 : (m ++ idc).take (m.length - (p :: pre).length)
              = m.take (m.length - (p :: pre).length) := by
            rw [List.take_append_eq_append_take]
            have h3 : m.length - (p :: pre).length - m.length = 0 := by omega
            simp [h3]
          rw [← h1, hAB, h2]
        exact hbf _ hk2 hk1 htake
    · obtain ⟨t, ht, hshape⟩ := ih
      refine ⟨t, ?_, ?_⟩
      · have harg : (p :: pre) ++ m ++ idc = p :: (pre ++ m ++ idc) := by simp
        rw [harg]
        simp only [afterFirst, List.append_eq]
        rw [if_neg hpref]
        exact ht
      · rcases hshape with h | ⟨pre2, hl, rfl⟩
        · exact Or.inl h
        · refine Or.inr ⟨pre2, ?_, rfl⟩
          simp only [List.length_cons]
          omega

/-- Python `s.split(m)[-1]` on `pre ++ m ++ idc` yields `idc` whenever
the (nonempty, border-free) marker does not occur in `idc`. -/
theorem splitTailAux_marker (m idc : List Char) (hm : m ≠ []) (hbf : borderFree m)
    (hid : afterFirst m idc = none) :
    ∀ N pre fuel, pre.length ≤ N → (pre ++ m ++ idc).length < fuel →
      splitTailAux m fuel (pre ++ m ++ idc) = idc := by
  intro N
  induction N with
  | zero =>
    intro pre fuel hN hfuel
    have hpre : pre = [] := List.length_eq_zero.1 (Nat.le_zero.1 hN)
    subst hpre
    obtain ⟨f, rfl⟩ : ∃ f, fuel = f + 1 := ⟨fuel - 1, by omega⟩
    obtain ⟨t, ht, hshape⟩ := afterFirst_append m idc hm hbf []
    rcases hshape with rfl | ⟨pre2, hl, rfl⟩
    · simp only [splitTailAux, ht]
      exact splitTailAux_of_none hid f
    · exact absurd hl (by simp)
  | succ N ih =>
    intro pre fuel hN hfuel
    obtain ⟨f, rfl⟩ : ∃ f, fuel = f + 1 := ⟨fuel - 1, by omega⟩
    obtain ⟨t, ht, hshape⟩ := afterFirst_append m idc hm hbf pre
    rcases hshape with rfl | ⟨pre2, hl, rfl⟩
    · simp only [splitTailAux, ht]
      exact splitTailAux_of_none hid f
    · simp only [splitTailAux, ht]
      apply ih pre2 f
      · omega
      · have h1 : (pre ++ m ++ idc).length ≤ f := by omega
        simp only [List.length_append] at h1 ⊢
        omega

theorem splitTail_append_marker (m pre idc : List Char) (hm : m ≠ []) (hbf : borderFree m)
    (hid : afterFirst m idc = none) :
    splitTail m (pre ++ m ++ idc) = idc :=
  splitTailAux_marker m idc hm hbf hid pre.length pre _ le_rfl (Nat.lt_succ_self _)

/-- String-level corollary: the operation-id extraction of
`upload_from_url` maps `pre ++ "operation_id=" ++ idStr` to `idStr`
when the marker does not occur in `idStr`. -/
theorem pySplitLast_marker (pre idStr : String)
    (hid : afterFirst opMarker.data idStr.data = none) :
    pySplitLast opMarker (pre ++ opMarker ++ idStr) = idStr := by
  unfold pySplitLast
  have hdata : (pre ++ opMarker ++ idStr).data = pre.data ++ opMarker.data ++ idStr.data := by
    simp
  rw [hdata, splitTail_append_marker _ _ _ (by decide) borderFree_opMarker hid]

/-- String-level corollary: when the marker does not occur in the
href at all, the extraction returns the href unchanged. -/
theorem pySplitLast_of_none (s : String) (h : afterFirst opMarker.data s.data = none) :
    pySplitLast opMarker s = s := by
  unfold pySplitLast
  rw [splitTail_of_none h]

/-!
### Properties of the polling loop and of `main`
-/

/-- If no poll in the remaining budget is terminal, the loop consumes
the whole budget and no failure diagnostic is printed. -/
theorem pollLoopAux_nonterminal (f : Nat → HttpResult StatusPayload) :
    ∀ r i n, (∀ k, k < r → isTerminalPoll (check_upload_status (f (i + k))) = false) →
      (pollLoopAux f i r n).attempts = i + r ∧ (pollLoopAux f i r n).failedInfo = none := by
  intro r
  induction r with
  | zero => exact fun i n _ => ⟨rfl, rfl⟩
  | succ r ih =>
    intro i n h
    have h0 := h 0 (Nat.succ_pos r)
    rw [Nat.add_zero] at h0
    cases hc : check_upload_status (f i) with
    | none =>
      have hrec := ih (i + 1) n (fun k hk => by
        have hx := h (k + 1) (Nat.succ_lt_succ hk)
        rwa [show i + (k + 1) = i + 1 + k by omega] at hx)
      simp only [pollLoopAux, hc]
      exact ⟨by rw [hrec.1]; omega, hrec.2⟩
    | some info =>
      rw [hc] at h0
      simp only [isTerminalPoll, Bool.or_eq_false_iff, decide_eq_false_iff_not] at h0
      have hrec := ih (i + 1) (n + max 0 (pyIntTimes100 (info.progress.getD 0) - n))
        (fun k hk => by
          have hx := h (k + 1) (Nat.succ_lt_succ hk)
          rwa [show i + (k + 1) = i + 1 + k by omega] at hx)
      simp only [pollLoopAux, hc]
      rw [if_neg h0.1, if_neg h0.2]
      exact ⟨by rw [hrec.1]; omega, hrec.2⟩

/-- If the first terminal poll is a `"failed"` payload at attempt
`j`, the loop breaks right after it, recording the diagnostic. -/
theorem pollLoopAux_failed (f : Nat → HttpResult StatusPayload) :
    ∀ j r i n info, j < r →
      (∀ k, k < j → isTerminalPoll (check_upload_status (f (i + k))) = false) →
      check_upload_status (f (i + j)) = some info →
      info.status = some "failed" →
      ∃ nn, pollLoopAux f i r n = ⟨nn, i + j + 1, some info⟩ := by
  intro j
  induction j with
  | zero =>
    intro r i n info hjr h hc hst
    obtain ⟨r2, rfl⟩ : ∃ r2, r = r2 + 1 := ⟨r - 1, by omega⟩
    rw [Nat.add_zero] at hc
    have hns : ¬ info.status = some "success" := by
      rw [hst]; decide
    refine ⟨n, ?_⟩
    simp only [pollLoopAux, hc]
    rw [if_neg hns, if_pos hst]
  | succ j ih =>
    intro r i n info hjr h hc hst
    obtain ⟨r2, rfl⟩ : ∃ r2, r = r2 + 1 := ⟨r - 1, by omega⟩
    have h0 := h 0 (Nat.succ_pos j)
    rw [Nat.add_zero] at h0
    have hshift : ∀ k, k < j → isTerminalPoll (check_upload_status (f (i + 1 + k))) = false := by
      intro k hk
      have hx := h (k + 1) (Nat.succ_lt_succ hk)
      rwa [show i + (k + 1) = i + 1 + k by omega] at hx
    have hc2 : check_upload_status (f (i + 1 + j)) = some info := by
      rwa [show i + (j + 1) = i + 1 + j by omega] at hc
    cases hc0 : check_upload_status (f i) with
    | none =>
      obtain ⟨nn, hrec⟩ := ih r2 (i + 1) n info (by omega) hshift hc2 hst
      refine ⟨nn, ?_⟩
      rw [show i + (j + 1) + 1 = i + 1 + j + 1 by omega]
      simp only [pollLoopAux, hc0]
      exact hrec
    | some info2 =>
      rw [hc0] at h0
      simp only [isTerminalPoll, Bool.or_eq_false_iff, decide_eq_false_iff_not] at h0
      obtain ⟨nn, hrec⟩ := ih r2 (i + 1)
        (n + max 0 (pyIntTimes100 (info2.progress.getD 0) - n)) info (by omega) hshift hc2 hst
      refine ⟨nn, ?_⟩
      rw [show i + (j + 1) + 1 = i + 1 + j + 1 by omega]
      simp only [pollLoopAux, hc0]
      rw [if_neg h0.1, if_neg h0.2]
      exact hrec

/-- When the credential check, folder creation and upload kickoff all
succeed, `main` reaches the polling loop and finishes with the
post-upload trace. -/
theorem main_run_reaches (args : Args) (env : Env) (opId : String)
    (htok : check_token env.tokenCheck = true)
    (hfold : create_folder (env.folderCreate args.group) = .ok true)
    (hup : upload_from_url (env.uploadResp
        ("https://cataas.com/cat/says/" ++ pyQuote args.text)
        (args.group ++ "/" ++ (args.text ++ ".jpg"))) = some opId)
    (hne : opId ≠ "") :
    main_run args env = .ok (postUploadTrace args env
      ("https://cataas.com/cat/says/" ++ pyQuote args.text)
      (args.text ++ ".jpg") (args.group ++ "/" ++ (args.text ++ ".jpg")) opId) := by
  have htruthy : isTruthy (some opId) = true := by
    simp [isTruthy, hne]
  simp only [main_run, htok, if_true, hfold, get_cat_with_text, hup, htruthy, Option.getD_some]

/-- Field values of the post-upload trace, independent of the
file-info outcome. -/
theorem postUploadTrace_fields (args : Args) (env : Env)
    (cat_url file_name file_path opId : String) :
    (postUploadTrace args env cat_url file_name file_path opId).pollsUsed
        = (pollLoop (env.pollResp opId)).attempts ∧
      (postUploadTrace args env cat_url file_name file_path opId).uploadFailDiag
        = (pollLoop (env.pollResp opId)).failedInfo ∧
      CallEvent.getFileInfo ∈ (postUploadTrace args env cat_url file_name file_path opId).calls := by
  unfold postUploadTrace
  cases get_file_info (env.fileInfoResp file_path) <;> simp

/-!
### Properties of the `quote` model
-/

/-- Uppercase hex digit characters are themselves safe output. -/
theorem hexDigitChar_safe : ∀ k, k < 16 → isPySafeChar (hexDigitChar k) = true := by decide

/-- A safe byte rendered as a character is safe output. -/
theorem charOfNat_safe :
    ∀ b, b < 128 → isSafeByte b = true → isPySafeChar (Char.ofNat b) = true := by decide

/-- Every safe byte is below 128 (all safe bytes are ASCII). -/
theorem isSafeByte_lt : ∀ b, isSafeByte b = true → b < 128 := by
  intro b h
  simp only [isSafeByte, decide_eq_true_eq] at h
  omega

/-- Each character emitted for one byte is safe output or the escape
character itself. -/
theorem encodeByte_ok (b : Nat) :
    ∀ c ∈ encodeByte b, isPySafeChar c = true ∨ c = '%' := by
  intro c hc
  unfold encodeByte at hc
  by_cases hsafe : isSafeByte b = true
  · rw [if_pos hsafe] at hc
    simp only [List.mem_singleton] at hc
    subst hc
    exact Or.inl (charOfNat_safe b (isSafeByte_lt b hsafe) hsafe)
  · rw [if_neg hsafe] at hc
    simp only [List.mem_cons, List.not_mem_nil, or_false] at hc
    rcases hc with rfl | rfl | rfl
    · exact Or.inr rfl
    · exact Or.inl (hexDigitChar_safe _ (Nat.mod_lt _ (by norm_num)))
    · exact Or.inl (hexDigitChar_safe _ (Nat.mod_lt _ (by norm_num)))

/-- Every character of a rendered byte sequence is safe output or the
escape character. -/
theorem renderBytes_ok : ∀ bs, ∀ c ∈ renderBytes bs, isPySafeChar c = true ∨ c = '%' := by
  intro bs
  induction bs with
  | nil => intro c hc; simp [renderBytes] at hc
  | cons b bs ih =>
    intro c hc
    simp only [renderBytes, List.mem_append] at hc
    rcases hc with hc | hc
    · exact encodeByte_ok b c hc
    · exact ih c hc

/-- Every character of a quoted string is an unescaped-safe character
or the escape character `%`. -/
theorem pyQuote_chars (text : String) :
    ∀ c ∈ (pyQuote text).data, isPySafeChar c = true ∨ c = '%' := by
  intro c hc
  exact renderBytes_ok _ c hc

/-!
### Claim theorems
-/

/-- **C1 (counterexample)** The claim says `createFolder` returns
`false` (rather than raising) on a raised transport exception.  In the
code the `requests.put` call of `create_folder` is not inside a
try/except, so the exception propagates: at the concrete input `exn`
the function raises (`Except.error ()`) and does not return `false`. -/
theorem c1_counterexample :
    create_folder (HttpResult.exn : HttpResult Unit) = Except.error () ∧
      create_folder (HttpResult.exn : HttpResult Unit) ≠ Except.ok false := by
  constructor
  · rfl
  · intro h
    exact Except.noConfusion h

/-- **C1 (amended)** `createFolder` returns `true` exactly when the
response status is 201 or 409 and `false` on any other status; a
raised transport exception propagates out of `createFolder` (the run
crashes) instead of producing `false`. -/
theorem c1_amended :
    (∀ st : Nat, ∀ u : Unit, create_folder (HttpResult.resp st u)
        = Except.ok (decide (st = 201 ∨ st = 409))) ∧
      create_folder (HttpResult.exn : HttpResult Unit) = Except.error () := by
  refine ⟨fun st u => ?_, rfl⟩
  show Except.ok (decide (st ∈ ([201, 409] : List Nat)))
      = Except.ok (decide (st = 201 ∨ st = 409))
  congr 1
  rw [decide_eq_decide]
  simp

/-- **C8** `checkCredential` returns `false` for every response whose
status is not 200 and for a raised network exception, and returns
`true` on status 200; it never raises (it is a total Bool-valued
function of the call outcome). -/
theorem c8_check_token :
    (∀ st : Nat, ∀ u : Unit, st ≠ 200 → check_token (HttpResult.resp st u) = false) ∧
      (∀ u : Unit, check_token (HttpResult.resp 200 u) = true) ∧
      check_token (HttpResult.exn : HttpResult Unit) = false := by
  refine ⟨fun st u hst => ?_, fun _ => rfl, rfl⟩
  simp [check_token, hst]

theorem c8_check_token_witness :
    (404 : Nat) ≠ 200 ∧ check_token (HttpResult.resp 404 ()) = false :=
  ⟨by decide, c8_check_token.1 404 () (by decide)⟩

/-- **C6** On an HTTP 202 response whose `href` is any string of the
form `pre ++ "operation_id=" ++ id` where the marker does not occur in
`id`, `startUpload` returns exactly `id`; on any non-202 status and on
a raised exception it returns `none`. -/
theorem c6_upload_from_url :
    (∀ pre idStr : String, afterFirst opMarker.data idStr.data = none →
        upload_from_url (HttpResult.resp 202 (some (pre ++ opMarker ++ idStr)))
          = some idStr) ∧
      (∀ st : Nat, ∀ href? : Option String, st ≠ 202 →
        upload_from_url (HttpResult.resp st href?) = none) ∧
      upload_from_url (HttpResult.exn : HttpResult (Option String)) = none := by
  refine ⟨fun pre idStr hid => ?_, fun st href? hst => ?_, rfl⟩
  · have h1 : upload_from_url (HttpResult.resp 202 (some (pre ++ opMarker ++ idStr)))
        = some (pySplitLast opMarker (pre ++ opMarker ++ idStr)) := by
      simp [upload_from_url]
    rw [h1, pySplitLast_marker pre idStr hid]
  · simp [upload_from_url, hst]

theorem c6_upload_from_url_witness :
    afterFirst opMarker.data ("ABC123" : String).data = none ∧
      upload_from_url (HttpResult.resp 202 (some ("https://x/?" ++ opMarker ++ "ABC123")))
        = some "ABC123" :=
  ⟨by decide, c6_upload_from_url.1 "https://x/?" "ABC123" (by decide)⟩

/-- **C10** On an HTTP 202 response whose `href` does not contain the
marker `operation_id=`, `startUpload` returns the entire href
unchanged (for a missing `href` field the default empty string, hence
`some ""`), and the caller falsiness check at main.py line 150 treats
exactly `none` and `some ""` as failure. -/
theorem c10_href_without_marker :
    (∀ href : String, afterFirst opMarker.data href.data = none →
        upload_from_url (HttpResult.resp 202 (some href)) = some href) ∧
      upload_from_url (HttpResult.resp 202 (none : Option String)) = some "" ∧
      isTruthy (some "") = false ∧
      isTruthy none = false ∧
      (∀ s : String, s ≠ "" → isTruthy (some s) = true) := by
  refine ⟨fun href h => ?_, by decide, by decide, rfl, fun s hs => ?_⟩
  · have h1 : upload_from_url (HttpResult.resp 202 (some href))
        = some (pySplitLast opMarker href) := by
      simp [upload_from_url]
    rw [h1, pySplitLast_of_none href h]
  · simp [isTruthy, hs]

theorem c10_href_without_marker_witness :
    afterFirst opMarker.data ("nomarker" : String).data = none ∧
      upload_from_url (HttpResult.resp 202 (some "nomarker")) = some "nomarker" ∧
      ("OP" : String) ≠ "" ∧ isTruthy (some "OP") = true :=
  ⟨by decide, c10_href_without_marker.1 "nomarker" (by decide), by decide,
    c10_href_without_marker.2.2.2.2 "OP" (by decide)⟩

/-- **C2** Whenever a poll (the first terminal one, at attempt `j`)
returns a payload whose `status` is `"failed"`, `main` prints the
failure diagnostic (recorded in `uploadFailDiag`), exits the loop
right after that attempt, and still proceeds to the file-info fetch
(step 6) — the run completes normally instead of aborting. -/
theorem c2_failed_poll_proceeds (args : Args) (env : Env) (opId : String)
    (j : Nat) (info : StatusPayload)
    (htok : check_token env.tokenCheck = true)
    (hfold : create_folder (env.folderCreate args.group) = .ok true)
    (hup : upload_from_url (env.uploadResp
        ("https://cataas.com/cat/says/" ++ pyQuote args.text)
        (args.group ++ "/" ++ (args.text ++ ".jpg"))) = some opId)
    (hne : opId ≠ "")
    (hj : j < 20)
    (hearly : ∀ k, k < j → isTerminalPoll (check_upload_status (env.pollResp opId k)) = false)
    (hfail : check_upload_status (env.pollResp opId j) = some info)
    (hst : info.status = some "failed") :
    runOk (main_run args env) = true ∧
      runFailDiag (main_run args env) = some info ∧
      runPollsUsed (main_run args env) = j + 1 ∧
      CallEvent.getFileInfo ∈ runCalls (main_run args env) := by
  have hmain := main_run_reaches args env opId htok hfold hup hne
  obtain ⟨nn, hloop⟩ := pollLoopAux_failed (env.pollResp opId) j 20 0 0 info hj
    (fun k hk => by simpa using hearly k hk) (by simpa using hfail) hst
  have hloop2 : pollLoop (env.pollResp opId) = ⟨nn, 0 + j + 1, some info⟩ := hloop
  have hfields := postUploadTrace_fields args env
    ("https://cataas.com/cat/says/" ++ pyQuote args.text)
    (args.text ++ ".jpg") (args.group ++ "/" ++ (args.text ++ ".jpg")) opId
  rw [hmain]
  refine ⟨rfl, ?_, ?_, ?_⟩
  · simp only [runFailDiag]
    rw [hfields.2.1, hloop2]
  · simp only [runPollsUsed]
    rw [hfields.1, hloop2]
    simp
  · simp only [runCalls]
    exact hfields.2.2

theorem c2_failed_poll_proceeds_witness :
    runOk (main_run argsDemo envFailedPoll) = true ∧
      runFailDiag (main_run argsDemo envFailedPoll) = some ⟨some "failed", none⟩ ∧
      runPollsUsed (main_run argsDemo envFailedPoll) = 1 ∧
      CallEvent.getFileInfo ∈ runCalls (main_run argsDemo envFailedPoll) :=
  c2_failed_poll_proceeds argsDemo envFailedPoll "OP1" 0 ⟨some "failed", none⟩
    rfl rfl (by decide) (by decide) (by decide)
    (fun k hk => absurd hk (Nat.not_lt_zero k)) rfl rfl

/-- **C4** If none of the 20 poll attempts is terminal (each returns a
non-terminal payload or nothing), the loop consumes all 20 attempts
and ends silently — no exception, no failure diagnostic — and
execution proceeds to the file-info fetch. -/
theorem c4_poll_timeout_silent (args : Args) (env : Env) (opId : String)
    (htok : check_token env.tokenCheck = true)
    (hfold : create_folder (env.folderCreate args.group) = .ok true)
    (hup : upload_from_url (env.uploadResp
        ("https://cataas.com/cat/says/" ++ pyQuote args.text)
        (args.group ++ "/" ++ (args.text ++ ".jpg"))) = some opId)
    (hne : opId ≠ "")
    (hpolls : ∀ k, k < 20 → isTerminalPoll (check_upload_status (env.pollResp opId k)) = false) :
    runOk (main_run args env) = true ∧
      runPollsUsed (main_run args env) = 20 ∧
      runFailDiag (main_run args env) = none ∧
      CallEvent.getFileInfo ∈ runCalls (main_run args env) := by
  have hmain := main_run_reaches args env opId htok hfold hup hne
  have hloop := pollLoopAux_nonterminal (env.pollResp opId) 20 0 0
    (fun k hk => by simpa using hpolls k hk)
  have hloopA : (pollLoop (env.pollResp opId)).attempts = 0 + 20 := hloop.1
  have hloopF : (pollLoop (env.pollResp opId)).failedInfo = none := hloop.2
  have hfields := postUploadTrace_fields args env
    ("https://cataas.com/cat/says/" ++ pyQuote args.text)
    (args.text ++ ".jpg") (args.group ++ "/" ++ (args.text ++ ".jpg")) opId
  rw [hmain]
  refine ⟨rfl, ?_, ?_, ?_⟩
  · simp only [runPollsUsed]
    rw [hfields.1, hloopA]
  · simp only [runFailDiag]
    rw [hfields.2.1, hloopF]
  · simp only [runCalls]
    exact hfields.2.2

theorem c4_poll_timeout_silent_witness :
    runOk (main_run argsDemo envPollExn) = true ∧
      runPollsUsed (main_run argsDemo envPollExn) = 20 ∧
      runFailDiag (main_run argsDemo envPollExn) = none ∧
      CallEvent.getFileInfo ∈ runCalls (main_run argsDemo envPollExn) :=
  c4_poll_timeout_silent argsDemo envPollExn "OP1"
    rfl rfl (by decide) (by decide) (fun k hk => rfl)

/-- **C9** When the credential check returns any non-200 status,
`main` returns right after printing the token error: the only external
call made is the credential check (so no folder-creation call), no
manifest is written, and the run terminates normally (no exception,
plain `return`, exit code 0). -/
theorem c9_bad_token_aborts (args : Args) (env : Env) (st : Nat) (u : Unit)
    (henv : env.tokenCheck = HttpResult.resp st u) (hst : st ≠ 200) :
    main_run args env = .ok (abortTrace [CallEvent.checkToken]) ∧
      CallEvent.createFolder ∉ runCalls (main_run args env) ∧
      runManifest (main_run args env) = none := by
  have htok : check_token env.tokenCheck = false := by
    rw [henv]
    simp [check_token, hst]
  have hmain : main_run args env = .ok (abortTrace [CallEvent.checkToken]) := by
    simp [main_run, htok]
  refine ⟨hmain, ?_, ?_⟩
  · rw [hmain]
    decide
  · rw [hmain]
    rfl

theorem c9_bad_token_aborts_witness :
    main_run argsDemo envBadToken = .ok (abortTrace [CallEvent.checkToken]) ∧
      CallEvent.createFolder ∉ runCalls (main_run argsDemo envBadToken) ∧
      runManifest (main_run argsDemo envBadToken) = none :=
  c9_bad_token_aborts argsDemo envBadToken 403 () rfl (by decide)

/-- **C3** End-to-end scenario `--text "hi" --group "cats"` with every
backing call succeeding (folder 201, upload 202, first poll success,
file info of size 1234 at the uploaded path): the run completes
normally and writes a manifest whose `file_name` is `"hi.jpg"`,
`file_path` is `"cats/hi.jpg"` and `file_size` is `1234`. -/
theorem c3_end_to_end :
    runOk (main_run argsDemo envHappy) = true ∧
      (runManifest (main_run argsDemo envHappy)).map
          (fun m => (m.file_name, m.file_path, m.file_size))
        = some ("hi.jpg", "cats/hi.jpg", 1234) := by
  decide

/-- **C5** With poll payloads running(0.3), running(0.6), success, the
progress bar reaches exactly 100 at the third poll and the loop exits
after 3 of its 20 attempts. -/
theorem c5_progress_sequence :
    pollSeqC5 0 = HttpResult.resp 200 ⟨some "running", some (3 / 10)⟩ ∧
      pollSeqC5 1 = HttpResult.resp 200 ⟨some "running", some (6 / 10)⟩ ∧
      pollSeqC5 2 = HttpResult.resp 200 ⟨some "success", none⟩ ∧
      (pollLoop pollSeqC5).pbarN = 100 ∧ (pollLoop pollSeqC5).attempts = 3 ∧
      (pollLoop pollSeqC5).attempts < 20 := by
  refine ⟨?_, ?_, rfl, by decide, by decide, by decide⟩
  · show HttpResult.resp 200 (⟨some "running", some (mkRat 3 10)⟩ : StatusPayload)
        = HttpResult.resp 200 (⟨some "running", some (3 / 10)⟩ : StatusPayload)
    norm_num [mkRat, Rat.normalize]
  · show HttpResult.resp 200 (⟨some "running", some (mkRat 6 10)⟩ : StatusPayload)
        = HttpResult.resp 200 (⟨some "running", some (6 / 10)⟩ : StatusPayload)
    norm_num [mkRat, Rat.normalize]

/-- **C7 (counterexample)** The claim says that for every input
containing reserved URL characters, the reserved characters are
percent-encoded and none of them appears raw in the result.  The
slash is an RFC 3986 reserved character, yet Python `quote` keeps it
raw by default (its default safe set is `"/"`): at the concrete input
`"a/b"`, the result still contains the raw `/` coming from the input,
unencoded. -/
theorem c7_counterexample :
    isReservedUrlChar '/' = true ∧
      '/' ∈ ("a/b" : String).data ∧
      get_cat_with_text "a/b" = some "https://cataas.com/cat/says/a/b" ∧
      '/' ∈ (pyQuote "a/b").data := by
  decide

/-- **C7 (amended)** `buildImageUrl` always returns the fixed template
with the percent-encoded text substituted, and every character of the
encoded text is either a character the encoder deems safe (ASCII
letters, digits, `_ . - ~` and, deliberately, `/`) or the escape
character `%`: reserved characters other than `/` never appear raw. -/
theorem c7_amended :
    (∀ text : String, get_cat_with_text text
        = some ("https://cataas.com/cat/says/" ++ pyQuote text)) ∧
      (∀ text : String, ∀ c ∈ (pyQuote text).data, isPySafeChar c = true ∨ c = '%') :=
  ⟨fun _ => rfl, fun text c hc => pyQuote_chars text c hc⟩

theorem c7_amended_witness :
    'a' ∈ (pyQuote "a b&c").data ∧ (isPySafeChar 'a' = true ∨ 'a' = '%') :=
  ⟨by decide, c7_amended.2 "a b&c" 'a' (by decide)⟩
